import Mathlib

/-!
Verification of the research-orchestration core of the AI-Research-Assistant
repository.  The Python source is embedded shallowly: JSON-ish dynamic values
become the `Json` inductive, dictionaries become insertion-ordered association
lists, fallible calls become `Except`/`Option`, and external collaborators
(the LLM judgment function, the search backend, `json.loads`) become oracle
parameters.  Definitions follow the corresponding Python functions line by
line; file/section comments name the source file each block embeds.
-/

/-! ### JSON-like dynamic values (parsed Python/JSON data) -/

/-- Parsed JSON values as they flow between agents (Python `dict`/`list`/
`str`/numbers/booleans/`None`).  Numbers are modelled as rationals. -/
inductive Json where
  | null : Json
  | bool (b : Bool) : Json
  | num (q : ℚ) : Json
  | str (s : String) : Json
  | arr (elems : List Json) : Json
  | obj (fields : List (String × Json)) : Json
deriving Repr

/-- Python truthiness (`bool(x)`) on JSON-like values. -/
def Json.truthy : Json → Bool
  | .null => false
  | .bool b => b
  | .num q => q != 0
  | .str s => s != ""
  | .arr l => !l.isEmpty
  | .obj f => !f.isEmpty

/-- Python `d.get(k)`: `None` when the key is missing (or the value is not a
dict, in which case the source would raise; all call sites guard with an
`isinstance(..., dict)` check first). -/
def jget (j : Json) (k : String) : Json :=
  match j with
  | .obj fields =>
    match fields.lookup k with
    | some v => v
    | none => .null
  | _ => .null

/-- Python `d.get(k, dflt)`: the default fires only when the key is missing. -/
def jgetD (j : Json) (k : String) (dflt : Json) : Json :=
  match j with
  | .obj fields =>
    match fields.lookup k with
    | some v => v
    | none => dflt
  | _ => dflt

/-- Python `a or b` on JSON-like values. -/
def pyOr (a b : Json) : Json := if a.truthy then a else b

/-- Is the value a JSON object (a Python `dict`)? -/
def Json.isObj : Json → Bool
  | .obj _ => true
  | _ => false

mutual
/-- Python `repr()` of a JSON-like value (string escaping inside quoted
strings is elided; numeric rendering is the rational's decimal form). -/
def Json.pyRepr : Json → String
  | .null => "None"
  | .bool true => "True"
  | .bool false => "False"
  | .num q => if q.den == 1 then toString q.num else toString q
  | .str s => "\x27" ++ s ++ "\x27"
  | .arr l => "[" ++ ", ".intercalate (pyReprList l) ++ "]"
  | .obj f => "\x7b" ++ ", ".intercalate (pyReprFields f) ++ "\x7d"

/-- `repr` of each element of a list. -/
def pyReprList : List Json → List String
  | [] => []
  | j :: rest => j.pyRepr :: pyReprList rest

/-- `repr` of each key/value pair of a dict. -/
def pyReprFields : List (String × Json) → List String
  | [] => []
  | (k, v) :: rest => ("\x27" ++ k ++ "\x27: " ++ v.pyRepr) :: pyReprFields rest
end

/-- Python `str()` of a JSON-like value. -/
def Json.pyStr (j : Json) : String :=
  match j with
  | .str s => s
  | other => other.pyRepr

/-- Insertion-ordered association-list update, mirroring Python dict
assignment `d[k] = v`: replace in place if the key exists, else append. -/
def assocSet {β : Type} (d : List (String × β)) (k : String) (v : β) :
    List (String × β) :=
  match d with
  | [] => [(k, v)]
  | (k2, v2) :: rest =>
    if k2 == k then (k, v) :: rest else (k2, v2) :: assocSet rest k v

/-! ### src/services/session_checkpoint.py — SessionCheckpointService

`save_checkpoint` writes `json.dump({'saved_at': t, 'state': state})` to
`<storage_dir>/<session_id>.json`; `load_checkpoint` reads the file back with
`json.load` and returns `payload.get('state')` (or `None` when the file does
not exist).  The filesystem is modelled as a map from path to the parsed JSON
content of the file: `json.load` is a left inverse of `json.dump` on
JSON-serializable values, so the file is represented by the stored value. -/

/-- Filesystem: path ↦ parsed JSON content of the checkpoint file. -/
abbrev FileSys := List (String × Json)

/-- `SessionCheckpointService.save_checkpoint`; returns the new filesystem
and the path (the Python function returns the path). -/
def save_checkpoint (fs : FileSys) (storage_dir session_id : String)
    (saved_at : ℚ) (state : Json) : FileSys × String :=
  let path := storage_dir ++ "/" ++ session_id ++ ".json"
  let payload := Json.obj [("saved_at", .num saved_at), ("state", state)]
  (assocSet fs path payload, path)

/-- `SessionCheckpointService.load_checkpoint`: `none` when the file is
absent, otherwise `payload.get('state')`. -/
def load_checkpoint (fs : FileSys) (storage_dir session_id : String) :
    Option Json :=
  let path := storage_dir ++ "/" ++ session_id ++ ".json"
  match fs.lookup path with
  | none => none
  | some payload => some (jget payload "state")

/-! ### src/tools/web_search_tool.py — WebSearchTool.rank_results -/

/-- One raw search-result record as constructed by `WebSearchTool.search`
(lines 37–42): the four keys are always present but their values may be
`None`; `metadata` appears on normalized records only. -/
structure RawSource where
  url : Option String
  title : Option String
  content : Option String
  relevance_score : Option ℚ
  metadata : Option Json
deriving Repr

/-- The sort key of `rank_results`: `s.get('relevance_score', 0)`. -/
def rankKey (s : RawSource) : ℚ := s.relevance_score.getD 0

/-- Descending comparison used by
`sorted(sources, key=..., reverse=True)`. -/
def rankLE (a b : RawSource) : Bool := decide (rankKey b ≤ rankKey a)

/-- `WebSearchTool.rank_results`: Python's `sorted` is a stable sort, so it
is embedded as `List.mergeSort` (stable) on the descending comparison; the
`query` argument is ignored, exactly as in the source. -/
def rank_results (sources : List RawSource) (query : String) :
    List RawSource :=
  let _ := query
  sources.mergeSort rankLE

/-! ### src/agents/research_agents.py — QueryPlannerAgent._safe_load_json

`json.loads` is an external parser; it is modelled as an oracle
`parse : String → Option Json` (`none` = the call raises). -/

/-- Python `text.find(c)`: index of the first occurrence, `-1` if absent. -/
def strFind (s : String) (c : Char) : Int :=
  match s.toList.findIdx? (· == c) with
  | some i => (i : Int)
  | none => -1

/-- Python `text.rfind(c)`: index of the last occurrence, `-1` if absent. -/
def strRfind (s : String) (c : Char) : Int :=
  match s.toList.reverse.findIdx? (· == c) with
  | some i => (s.length : Int) - 1 - (i : Int)
  | none => -1

/-- Python slice `s[a:b]` by character index (for `0 ≤ a ≤ b`). -/
def sliceChars (s : String) (a b : Nat) : String :=
  String.mk ((s.toList.drop a).take (b - a))

/-- `QueryPlannerAgent._safe_load_json` (lines 156–178): try the full reply,
then the substring from the first opening to the last closing brace, and
finally fall back to the empty dict. -/
def safe_load_json (parse : String → Option Json) (text : String) : Json :=
  if text == "" then Json.obj []
  else
    let t := text.trim
    match parse t with
    | some v => v
    | none =>
      let start := strFind t (Char.ofNat 123)
      let stop := strRfind t (Char.ofNat 125)
      if start != -1 && stop != -1 && stop > start then
        match parse (sliceChars t start.toNat (stop.toNat + 1)) with
        | some v => v
        | none => Json.obj []
      else Json.obj []

/-! ### src/agents/research_agents.py — ResearchAgent -/

/-- A planned sub-question as consumed by the research agents: the
iterative loop reads `s.get("question")`, the parallel coordinators read
`sq['question']` and `sq.get('search_strategy', 'general')`. -/
structure SubQ where
  question : Option String
  search_strategy : Option String
deriving Repr

/-- Python `x or ""` for a string-or-`None` value (also `d.get(k, "")`). -/
def pyOrStr (o : Option String) : String :=
  match o with
  | some s => s
  | none => ""

/-- A normalized source dict as built by `ResearchAgent.research`
(lines 224–231). -/
structure NormSource where
  url : String
  title : String
  content : String
  relevance_score : ℚ
  metadata : Json
deriving Repr

/-- The normalization of one raw search result (lines 224–231): string
fields default to `""`, `relevance_score` defaults to `0.5` when the key is
missing, `metadata` defaults to the empty dict. -/
def normalizeSource (source : RawSource) : NormSource :=
  { url := pyOrStr source.url
    title := pyOrStr source.title
    content := pyOrStr source.content
    relevance_score := source.relevance_score.getD (1 / 2)
    metadata :=
      match source.metadata with
      | some m => if m.truthy then m else Json.obj []
      | none => Json.obj [] }

/-- The gap-analysis verdict `{"next_search": ..., "need_more": ...}`. -/
structure GapResult where
  next_search : List Json
  need_more : Bool
deriving Repr

/-- `ResearchAgent._identify_gaps` (lines 261–281).  The LLM judgment call
is the oracle `llm : user-message → Except`; a `.error` outcome models a
raised exception.  On a raise, or when the reply does not parse to a dict,
the deterministic default `{"next_search": [], "need_more": False}` is
returned. -/
def identify_gaps (llm : String → Except String String)
    (parse : String → Option Json)
    (sources : List NormSource) (sub_questions : List SubQ) : GapResult :=
  let sources_text :=
    "\n".intercalate ((sources.take 4).map (fun s => s.content.take 220))
  let questions_text :=
    "\n".intercalate
      ((sub_questions.take 6).map (fun sq => "- " ++ pyOrStr sq.question))
  let user_message :=
    "Sub-questions:\n" ++ questions_text ++ "\n\nSources summary:\n" ++
      sources_text ++
      "\n\nReturn JSON with next_search (list) and need_more boolean."
  match llm user_message with
  | .error _ => ⟨[], false⟩
  | .ok reply =>
    let parsed := safe_load_json parse reply
    match parsed with
    | .obj _ =>
      let raw :=
        pyOr (pyOr (jget parsed "next_search") (jget parsed "next_search_queries"))
          (jget parsed "next_searches")
      let ns0 := pyOr raw (Json.arr [])
      let ns : List Json :=
        match ns0 with
        | .arr l => l
        | other => if other.truthy then [Json.str other.pyStr] else []
      let need_more :=
        (jgetD parsed "need_more"
          (jgetD parsed "need_more_research" (Json.bool false))).truthy
      ⟨ns, need_more⟩
    | _ => ⟨[], false⟩

/-- One entry of the iterative loop's `research_log` (lines 246–250). -/
structure IterRecord where
  iteration : Nat
  queries : List Json
  sources_found : Nat
deriving Repr

/-- The dict returned by `ResearchAgent.research` (lines 254–259). -/
structure IterResearchResult where
  sources : List NormSource
  research_log : List IterRecord
  iterations_completed : Nat
  total_sources : Nat
deriving Repr

/-- `self.search_tool.search(q, max_results=4)` followed by
`result.get("results", [])`; a raised search exception is caught and treated
as `{"results": []}` (lines 216–220). -/
def searchResults (search : Json → Except String (List RawSource))
    (q : Json) : List RawSource :=
  match search q with
  | .ok rs => rs
  | .error _ => []

/-- The per-turn inner loop (lines 211–244): at most the first two queries
are issued, falsy queries are skipped, and each result is normalized.  The
`memory_bank.store_source` call has its exceptions caught and does not
affect the returned result, so it is not threaded here. -/
def iterationSources (search : Json → Except String (List RawSource))
    (queries : List Json) : List NormSource :=
  ((queries.take 2).map (fun q =>
    if q.truthy then (searchResults search q).map normalizeSource else [])).flatten

/-- The `for iteration in range(max_iterations)` loop of
`ResearchAgent.research` (lines 202–250), with the remaining range as fuel:
turn 0 issues the verbatim sub-question texts, later turns consult
`identify_gaps` and break when `need_more` is false. -/
def researchGo (search : Json → Except String (List RawSource))
    (llm : String → Except String String) (parse : String → Option Json)
    (sub_questions : List SubQ) :
    Nat → Nat → List NormSource → List IterRecord →
      List NormSource × List IterRecord
  | 0, _, allSources, log => (allSources, log)
  | fuel + 1, iteration, allSources, log =>
    let queriesOpt : Option (List Json) :=
      if iteration == 0 then
        some (sub_questions.map (fun s => Json.str (pyOrStr s.question)))
      else
        let gap := identify_gaps llm parse allSources sub_questions
        if gap.need_more then some gap.next_search else none
    match queriesOpt with
    | none => (allSources, log)
    | some queries =>
      let iterSources := iterationSources search queries
      researchGo search llm parse sub_questions fuel (iteration + 1)
        (allSources ++ iterSources)
        (log ++ [⟨iteration + 1, queries, iterSources.length⟩])

/-- `ResearchAgent.__init__` sets `self.max_iterations = 3` (line 188). -/
def researchAgentMaxIterations : Nat := 3

/-- `ResearchAgent.research` (lines 198–259). -/
def research (max_iterations : Nat) (sub_questions : List SubQ)
    (search : Json → Except String (List RawSource))
    (llm : String → Except String String)
    (parse : String → Option Json) : IterResearchResult :=
  let r := researchGo search llm parse sub_questions max_iterations 0 [] []
  { sources := r.1
    research_log := r.2
    iterations_completed := r.2.length
    total_sources := r.1.length }

/-! ### src/agents/research_agents.py — ValidationAgent.validate -/

/-- Python `int(x)`: booleans map to 0/1, numbers truncate toward zero,
numeric strings parse, everything else raises. -/
def pyToInt : Json → Except String Int
  | .bool b => .ok (if b then 1 else 0)
  | .num q => .ok (q.num.tdiv (q.den : Int))
  | .str s =>
    match s.toInt? with
    | some i => .ok i
    | none => .error "ValueError"
  | _ => .error "TypeError"

/-- The dict returned by `ValidationAgent.validate`. -/
structure ValidationResult where
  status : Json
  confidence : Int
  gaps : List Json
deriving Repr

/-- `ValidationAgent.validate` (lines 315–334).  All failures — a raised
LLM call, a reply that does not parse to a dict, an unconvertible
confidence value — fall back to
`{"status": "needs_review", "confidence": 70, "gaps": []}`. -/
def validate (llm : String → Except String String)
    (parse : String → Option Json)
    (synthesis : String) (sources : List RawSource) : ValidationResult :=
  let refs :=
    "\n".intercalate ((sources.take 6).map (fun s =>
      pyOrStr s.title ++ " - " ++ pyOrStr s.url))
  let user_message :=
    "SYNTHESIS:\\n" ++ synthesis ++ "\\n\\nSOURCES:\\n" ++ refs ++
      "\\n\\nReturn JSON with keys: status, confidence (0-100), gaps (list)"
  let fallback : ValidationResult := ⟨Json.str "needs_review", 70, []⟩
  match llm user_message with
  | .error _ => fallback
  | .ok reply =>
    let parsed := safe_load_json parse reply
    if parsed.isObj then
      let status :=
        pyOr (pyOr (jget parsed "status") (jget parsed "validation_status"))
          (Json.str "needs_review")
      let confidence :=
        pyOr (pyOr (jget parsed "confidence") (jget parsed "confidence_score"))
          (Json.num 70)
      let gapsRaw := pyOr (jget parsed "gaps") (Json.arr [])
      let gaps : List Json :=
        match gapsRaw with
        | .arr l => l
        | other => [Json.str other.pyStr]
      match pyToInt (pyOr confidence (Json.num 0)) with
      | .ok c => ⟨status, c, gaps⟩
      | .error _ => fallback
    else fallback

/-! ### src/agents/parallel_agents.py — the two parallel coordinators

A dispatched task (`_research_single_question` and its async twin) either
returns its list of discovered sources or raises; the coordinator only reads
`result['sources']` and the sub-question text, so a settled task is a
question paired with an `Except` outcome (memory-bank persistence happens
inside the task).  For the thread-pool coordinator the task list is in
`as_completed` (completion) order; for the async coordinator `asyncio.gather`
yields results in submission order. -/

/-- A settled parallel task: the sub-question text and its outcome. -/
structure PTask where
  question : String
  outcome : Except String (List RawSource)
deriving Repr

/-- One `research_log` entry.  `sources_found`/`error` are `Option` because
the async coordinator's failed entry omits the `sources_found` key; `fields`
below recovers exactly which keys each dict literal carries. -/
structure LogEntry where
  question : String
  sources_found : Option Nat
  status : String
  error : Option String
deriving Repr

/-- The keys of the log-entry dict, in literal order. -/
def LogEntry.fields (e : LogEntry) : List String :=
  ["question"] ++
    (match e.sources_found with | some _ => ["sources_found"] | none => []) ++
    ["status"] ++
    (match e.error with | some _ => ["error"] | none => [])

/-- The dict returned by either coordinator.  `parallel_workers` is set only
by the thread-pool variant, `execution_mode` only by the async variant. -/
structure ParallelResult where
  sources : List RawSource
  research_log : List LogEntry
  total_sources : Nat
  parallel_workers : Option Nat
  execution_mode : Option String
  sub_questions_processed : Nat
deriving Repr

/-- The keys of the result dict, in literal order. -/
def ParallelResult.fields (r : ParallelResult) : List String :=
  ["sources", "research_log", "total_sources"] ++
    (match r.parallel_workers with | some _ => ["parallel_workers"] | none => []) ++
    (match r.execution_mode with | some _ => ["execution_mode"] | none => []) ++
    ["sub_questions_processed"]

/-- The sources contributed by one settled task (a failed task contributes
nothing to the accumulator). -/
def taskSources (t : PTask) : List RawSource :=
  match t.outcome with
  | .ok sources => sources
  | .error _ => []

/-- The thread-pool coordinator's log entry for one settled task
(lines 63–80): a raised task is caught and logged as
`{question, sources_found: 0, status: failed, error: str(e)}`. -/
def syncLogEntry (t : PTask) : LogEntry :=
  match t.outcome with
  | .ok sources => ⟨t.question, some sources.length, "completed", none⟩
  | .error e => ⟨t.question, some 0, "failed", some e⟩

/-- The async coordinator's log entry for one settled task (lines 190–204):
its failed entry has no `sources_found` key. -/
def asyncLogEntry (t : PTask) : LogEntry :=
  match t.outcome with
  | .ok sources => ⟨t.question, some sources.length, "completed", none⟩
  | .error e => ⟨t.question, none, "failed", some e⟩

/-- `ParallelResearchCoordinator.parallel_research` (lines 25–96):
`sub_questions` are the dispatched question texts in submission order,
`tasks` the settled tasks in completion order. -/
def parallel_research (sub_questions : List String) (tasks : List PTask)
    (max_workers : Nat) : ParallelResult :=
  let all_sources := (tasks.map taskSources).flatten
  let research_log := tasks.map syncLogEntry
  let ranked := rank_results all_sources (" ".intercalate sub_questions)
  { sources := ranked
    research_log := research_log
    total_sources := ranked.length
    parallel_workers := some max_workers
    execution_mode := none
    sub_questions_processed := sub_questions.length }

/-- `AsyncParallelResearchCoordinator.parallel_research_async`
(lines 164–220): `tasks` are the gathered outcomes in submission order. -/
def parallel_research_async (sub_questions : List String)
    (tasks : List PTask) : ParallelResult :=
  let all_sources := (tasks.map taskSources).flatten
  let research_log := tasks.map asyncLogEntry
  let ranked := rank_results all_sources (" ".intercalate sub_questions)
  { sources := ranked
    research_log := research_log
    total_sources := ranked.length
    parallel_workers := none
    execution_mode := some "async"
    sub_questions_processed := sub_questions.length }

/-! ### src/memory/memory_bank.py — SessionManager

Sessions are insertion-ordered dicts of JSON values; the store maps session
id to session.  `update_session` and `close_session` raise `KeyError` when
the session is absent. -/

/-- One stored session dict. -/
abbrev Session := List (String × Json)

/-- The `SessionManager.sessions` map. -/
abbrev SessionStore := List (String × Session)

/-- `SessionManager.create_session` (lines 49–57). -/
def create_session (store : SessionStore)
    (session_id query created_at : String) : SessionStore :=
  assocSet store session_id
    [("id", .str session_id), ("query", .str query),
     ("created_at", .str created_at), ("current_stage", .str "planning"),
     ("outputs", .obj [])]

/-- `SessionManager.update_session` (lines 59–63): Python `dict.update`,
`KeyError` when the session is absent. -/
def update_session (store : SessionStore) (session_id : String)
    (data : List (String × Json)) : Except String SessionStore :=
  match store.lookup session_id with
  | some sess =>
    .ok (assocSet store session_id
      (data.foldl (fun d kv => assocSet d kv.1 kv.2) sess))
  | none => .error "KeyError: Session not found"

/-- `SessionManager.get_session` (lines 65–66). -/
def get_session (store : SessionStore) (session_id : String) :
    Option Session :=
  store.lookup session_id

/-- `SessionManager.set_agent_output` (lines 68–70): silently a no-op when
the session is absent; `create_session` always initialises `outputs` to an
empty dict, so the lookup of `outputs` below always finds one. -/
def set_agent_output (store : SessionStore)
    (session_id agent_name : String) (output : Json) : SessionStore :=
  match store.lookup session_id with
  | some sess =>
    let outs :=
      match sess.lookup "outputs" with
      | some (Json.obj o) => o
      | _ => []
    assocSet store session_id
      (assocSet sess "outputs" (Json.obj (assocSet outs agent_name output)))
  | none => store

/-- `SessionManager.close_session` (lines 72–77): sets `status` and
`closed_at`; `KeyError` when the session is absent. -/
def close_session (store : SessionStore) (session_id status : String)
    (closed_at : ℚ) : Except String SessionStore :=
  match store.lookup session_id with
  | some sess =>
    .ok (assocSet store session_id
      (assocSet (assocSet sess "status" (.str status))
        "closed_at" (.num closed_at)))
  | none => .error "KeyError: Session not found"

/-! ### src/orchestrator.py — ResearchOrchestrator.conduct_research

Each agent call inside the pipeline is a collaborator whose behaviour in
this run is an `Except` oracle (`.error` = the call raised).  The threaded
state carries the session store, the categories of `memory_bank` writes, and
the observability events.  Metrics/memory-statistics summaries read at the
very end are pure reads with no control-flow or store effect and are elided
from the final results dict. -/

/-- Outcomes of the collaborator calls made during one
`conduct_research` run.  `duration_outcome` is the
`time.mktime(time.strptime(created_at, ...))` arithmetic of lines 113–115,
which raises when `created_at` does not carry microseconds. -/
structure OrchEnv where
  plan_outcome : Except String Json
  research_outcome : Except String Json
  synthesis_outcome : Except String Json
  validation_outcome : Except String Json
  generation_outcome : Except String Json
  duration_outcome : Except String Json

/-- Threaded orchestrator state: session store, memory-bank write
categories, observability events. -/
structure OrchState where
  store : SessionStore
  memories : List String
  obs : List String

/-- Python `d[k]` on a JSON value: `KeyError`/`TypeError` on failure. -/
def pyIndex (j : Json) (k : String) : Except String Json :=
  match j with
  | .obj fields =>
    match fields.lookup k with
    | some v => .ok v
    | none => .error ("KeyError: " ++ k)
  | _ => .error "TypeError: not a dict"

/-- Iterating a JSON value as a list (`TypeError` when it is not one). -/
def pyIterList (j : Json) : Except String (List Json) :=
  match j with
  | .arr l => .ok l
  | _ => .error "TypeError: not a list"

/-- `ResearchOrchestrator._stage_planning` (lines 148–167). -/
def stage_planning (env : OrchEnv) (session_id : String) (st : OrchState) :
    Except String Json × OrchState :=
  match env.plan_outcome with
  | .error e => (.error e, st)
  | .ok plan =>
    match update_session st.store session_id
        [("current_stage", .str "research"),
         ("sub_queries", jgetD plan "sub_questions" (.arr []))] with
    | .error e => (.error e, st)
    | .ok store2 =>
      let st2 : OrchState :=
        { store := set_agent_output store2 session_id "QueryPlanner" plan
          memories := st.memories ++ ["planning"]
          obs := st.obs }
      (.ok plan, st2)

/-- `ResearchOrchestrator._stage_research` (lines 169–201). -/
def stage_research (env : OrchEnv) (session_id : String) (st : OrchState) :
    Except String Json × OrchState :=
  match env.research_outcome with
  | .error e => (.error e, st)
  | .ok research_results =>
    match pyIndex research_results "sources" with
    | .error e => (.error e, st)
    | .ok sourcesJ =>
      match pyIndex research_results "iterations_completed" with
      | .error e => (.error e, st)
      | .ok iters =>
        match update_session st.store session_id
            [("current_stage", .str "synthesis"),
             ("sources_found", sourcesJ),
             ("research_iterations", iters)] with
        | .error e => (.error e, st)
        | .ok store2 =>
          match pyIterList sourcesJ with
          | .error e => (.error e, { st with store := store2 })
          | .ok srcs =>
            let st2 : OrchState :=
              { store := set_agent_output store2 session_id "Researcher"
                  research_results
                memories :=
                  st.memories ++ (srcs.take 5).map (fun _ => "source")
                obs := st.obs }
            (.ok research_results, st2)

/-- `ResearchOrchestrator._stage_synthesis` (lines 203–230). -/
def stage_synthesis (env : OrchEnv) (session_id : String) (st : OrchState) :
    Except String Json × OrchState :=
  match env.synthesis_outcome with
  | .error e => (.error e, st)
  | .ok synthesis_results =>
    match update_session st.store session_id
        [("current_stage", .str "validation")] with
    | .error e => (.error e, st)
    | .ok store2 =>
      match pyIndex synthesis_results "synthesis" with
      | .error e => (.error e, { st with store := store2 })
      | .ok _ =>
        let st2 : OrchState :=
          { store := set_agent_output store2 session_id "Synthesizer"
              synthesis_results
            memories := st.memories ++ ["synthesis"]
            obs := st.obs }
        (.ok synthesis_results, st2)

/-- `ResearchOrchestrator._stage_validation` (lines 232–261). -/
def stage_validation (env : OrchEnv) (session_id : String) (st : OrchState) :
    Except String Json × OrchState :=
  match env.validation_outcome with
  | .error e => (.error e, st)
  | .ok validation_results =>
    match update_session st.store session_id
        [("current_stage", .str "content_generation"),
         ("validation_results", validation_results)] with
    | .error e => (.error e, st)
    | .ok store2 =>
      let mems :=
        if (jget validation_results "gaps").truthy ||
            (jget validation_results "contradictions").truthy then
          ["validation"]
        else []
      let st2 : OrchState :=
        { store := set_agent_output store2 session_id "Validator"
            validation_results
          memories := st.memories ++ mems
          obs := st.obs }
      (.ok validation_results, st2)

/-- `ResearchOrchestrator._stage_generation` (lines 263–299).  Note that
`current_stage`/`status` are set to `completed` before the fallible
`final_content["content"]` access. -/
def stage_generation (env : OrchEnv) (session_id : String) (st : OrchState) :
    Except String Json × OrchState :=
  match env.generation_outcome with
  | .error e => (.error e, st)
  | .ok final_content =>
    match update_session st.store session_id
        [("current_stage", .str "completed"),
         ("status", .str "completed")] with
    | .error e => (.error e, st)
    | .ok store2 =>
      match pyIndex final_content "content" with
      | .error e => (.error e, { st with store := store2 })
      | .ok _ =>
        match pyIndex final_content "word_count" with
        | .error e => (.error e, { st with store := store2 })
        | .ok _ =>
          let st2 : OrchState :=
            { store := set_agent_output store2 session_id "ContentGenerator"
                final_content
              memories := st.memories ++ ["final_content"]
              obs := st.obs }
          (.ok final_content, st2)

/-- `conduct_research` result: the returned-or-raised value plus the final
collaborator state. -/
structure OrchOutcome where
  result : Except String Json
  state : OrchState

/-- The `except Exception` handler of `conduct_research` (lines 143–146):
log, report `failed` to observability, and re-raise.  The session store is
left exactly as the failing stage left it. -/
def orchFail (e : String) (st : OrchState) : OrchOutcome :=
  { result := .error e
    state := { st with obs := st.obs ++ ["end_session:failed"] } }

/-- `ResearchOrchestrator.conduct_research` (lines 53–146). -/
def conduct_research (env : OrchEnv) (store0 : SessionStore)
    (query session_id created_at : String) (now : ℚ) : OrchOutcome :=
  let st0 : OrchState :=
    { store := create_session store0 session_id query created_at
      memories := []
      obs := ["start_session"] }
  match stage_planning env session_id st0 with
  | (.error e, stE) => orchFail e stE
  | (.ok plan, st1) =>
  match stage_research env session_id st1 with
  | (.error e, stE) => orchFail e stE
  | (.ok research_results, st2) =>
  match stage_synthesis env session_id st2 with
  | (.error e, stE) => orchFail e stE
  | (.ok synthesis_results, st3) =>
  match stage_validation env session_id st3 with
  | (.error e, stE) => orchFail e stE
  | (.ok validation_results, st4) =>
  match stage_generation env session_id st4 with
  | (.error e, stE) => orchFail e stE
  | (.ok final_content, st5) =>
  match get_session st5.store session_id with
  | none => orchFail "TypeError: NoneType" st5
  | some sess =>
  match env.duration_outcome with
  | .error e => orchFail e st5
  | .ok dur =>
  let st6 : OrchState :=
    { store := assocSet st5.store session_id (assocSet sess "duration" dur)
      memories := st5.memories ++ ["session"]
      obs := st5.obs }
  match close_session st6.store session_id "completed" now with
  | .error e => orchFail e st6
  | .ok store7 =>
  let st7 : OrchState :=
    { st6 with store := store7, obs := st6.obs ++ ["end_session:completed"] }
  match pyIndex research_results "total_sources" with
  | .error e => orchFail e st7
  | .ok totalJ =>
  match pyIndex research_results "iterations_completed" with
  | .error e => orchFail e st7
  | .ok itersJ =>
  match pyIndex synthesis_results "synthesis" with
  | .error e => orchFail e st7
  | .ok synthJ =>
  let results := Json.obj
    [("session_id", .str session_id), ("query", .str query),
     ("plan", plan),
     ("research_summary",
       Json.obj [("total_sources", totalJ), ("iterations", itersJ)]),
     ("synthesis", synthJ), ("validation", validation_results),
     ("final_content", final_content)]
  { result := .ok results, state := st7 }

/-! ## Helper lemmas -/

theorem assocSet_lookup {β : Type} (d : List (String × β)) (k : String) (v : β) :
    (assocSet d k v).lookup k = some v := by
  induction d with
  | nil => simp [assocSet, List.lookup]
  | cons hd tl ih =>
    obtain ⟨k2, v2⟩ := hd
    by_cases h : k2 == k
    · simp [assocSet, h, List.lookup, BEq.symm h]
    · have h2 : ¬ (k == k2) := fun hk => h (BEq.symm hk)
      simp [assocSet, h, List.lookup, h2, ih]

theorem rankLE_trans (a b c : RawSource) :
    rankLE a b → rankLE b c → rankLE a c := by
  simp only [rankLE, decide_eq_true_eq]
  exact fun h1 h2 => le_trans h2 h1

theorem rankLE_total (a b : RawSource) : rankLE a b || rankLE b a := by
  simp only [rankLE, Bool.or_eq_true, decide_eq_true_eq]
  exact le_total (rankKey b) (rankKey a)


theorem assocSet_lookup_ne {β : Type} (d : List (String × β)) (k k2 : String)
    (v : β) (h : k ≠ k2) : (assocSet d k2 v).lookup k = d.lookup k := by
  have hb : (k == k2) = false := beq_eq_false_iff_ne.mpr h
  induction d with
  | nil => simp [assocSet, List.lookup, hb]
  | cons hd tl ih =>
    obtain ⟨k3, v3⟩ := hd
    by_cases h3 : k3 == k2
    · have : k3 = k2 := by simpa using h3
      subst this
      simp [assocSet, List.lookup, hb]
    · simp only [assocSet, h3]
      simp [List.lookup, ih]

/-! ## C9: checkpoint round-trip -/

/-- C9: for every filesystem, storage directory, session id, timestamp and
JSON-serializable state `X`, `load_checkpoint` after
`save_checkpoint(session_id, X)` returns exactly `X`. -/
theorem c9_checkpoint_roundtrip (fs : FileSys) (dir sid : String)
    (t : ℚ) (X : Json) :
    load_checkpoint (save_checkpoint fs dir sid t X).1 dir sid = some X := by
  simp [load_checkpoint, save_checkpoint, assocSet_lookup, jget, List.lookup]

/-! ## C10: total_sources always equals the length of sources -/

/-- C10: for every result produced by the iterative research loop, the
thread-pool parallel coordinator, or the async parallel coordinator, the
`total_sources` field equals the number of elements of its `sources`
sequence. -/
theorem c10_total_sources_matches_sources_length :
    (∀ (m : Nat) (subQs : List SubQ)
        (search : Json → Except String (List RawSource))
        (llm : String → Except String String) (parse : String → Option Json),
      (research m subQs search llm parse).total_sources
        = (research m subQs search llm parse).sources.length)
    ∧ (∀ (sq : List String) (tasks : List PTask) (w : Nat),
      (parallel_research sq tasks w).total_sources
        = (parallel_research sq tasks w).sources.length)
    ∧ (∀ (sq : List String) (tasks : List PTask),
      (parallel_research_async sq tasks).total_sources
        = (parallel_research_async sq tasks).sources.length) :=
  ⟨fun _ _ _ _ _ => rfl, fun _ _ _ => rfl, fun _ _ => rfl⟩

/-! ## C4: total_sources = sum of sources_found over completed log entries -/

/-- The sum of `sources_found` over the log entries with status
`completed`. -/
def completedSourcesSum (log : List LogEntry) : Nat :=
  ((log.filter (fun e => e.status == "completed")).map
    (fun e => e.sources_found.getD 0)).sum

theorem flatten_taskSources_eq_completedSum (tasks : List PTask) :
    ((tasks.map taskSources).flatten).length
      = completedSourcesSum (tasks.map syncLogEntry) := by
  induction tasks with
  | nil => simp [completedSourcesSum]
  | cons t ts ih =>
    cases ho : t.outcome with
    | ok srcs =>
      simp only [completedSourcesSum, List.map_cons, List.flatten_cons,
        List.length_append, taskSources, syncLogEntry, ho, List.filter_cons] at ih ⊢
      simp_all [completedSourcesSum]
    | error e =>
      simp only [completedSourcesSum, List.map_cons, List.flatten_cons,
        List.length_append, taskSources, syncLogEntry, ho, List.filter_cons] at ih ⊢
      simp_all [completedSourcesSum]

/-- C4: the thread-pool coordinator's `total_sources` equals the sum of the
`sources_found` values of the `research_log` entries whose status is
`completed` (failed tasks contribute 0). -/
theorem c4_total_sources_eq_sum_completed (sub_questions : List String)
    (tasks : List PTask) (max_workers : Nat) :
    (parallel_research sub_questions tasks max_workers).total_sources
      = completedSourcesSum
          (parallel_research sub_questions tasks max_workers).research_log := by
  have h := flatten_taskSources_eq_completedSum tasks
  simp only [List.length_flatten, List.map_map] at h
  simpa [parallel_research, rank_results] using h

/-! ## C8: rank_results sorts descending, stably, and is idempotent -/

/-- C8: `rank_results` sorts by `relevance_score` descending; it is stable
(the subsequence of sources having any fixed score is preserved, i.e. equal
scores keep their original order); and it is idempotent — ranking an
already-ranked sequence (under any query) returns the same order. -/
theorem c8_rank_results_sorted_stable_idempotent (l : List RawSource)
    (q : String) :
    ((rank_results l q).Pairwise (fun a b => rankKey b ≤ rankKey a))
    ∧ (∀ c : ℚ, (rank_results l q).filter (fun s => rankKey s == c)
        = l.filter (fun s => rankKey s == c))
    ∧ (∀ q2 : String, rank_results (rank_results l q) q2 = rank_results l q) := by
  have hsorted : (List.mergeSort l rankLE).Pairwise (fun a b => rankLE a b) :=
    List.sorted_mergeSort rankLE_trans rankLE_total l
  refine ⟨?_, ?_, ?_⟩
  · exact hsorted.imp (fun h => by simpa [rankLE, decide_eq_true_eq] using h)
  · intro c
    have hpairwise : (l.filter (fun s => rankKey s == c)).Pairwise
        (fun a b => rankLE a b) := by
      apply List.pairwise_of_forall_mem_list
      intro a ha b hb
      have hpa : rankKey a = c := by simpa using (List.mem_filter.mp ha).2
      have hpb : rankKey b = c := by simpa using (List.mem_filter.mp hb).2
      simp [rankLE, hpa, hpb]
    have hsub : List.Sublist (l.filter (fun s => rankKey s == c))
        (List.mergeSort l rankLE) :=
      List.sublist_mergeSort rankLE_trans rankLE_total hpairwise
        (List.filter_sublist l)
    have heq : (l.filter (fun s => rankKey s == c)).filter
        (fun s => rankKey s == c) = l.filter (fun s => rankKey s == c) :=
      List.filter_eq_self.mpr (fun a ha => (List.mem_filter.mp ha).2)
    have hsub2 := hsub.filter (fun s => rankKey s == c)
    rw [heq] at hsub2
    have hperm : List.Perm
        ((List.mergeSort l rankLE).filter (fun s => rankKey s == c))
        (l.filter (fun s => rankKey s == c)) :=
      (List.mergeSort_perm l rankLE).filter (fun s => rankKey s == c)
    exact (hsub2.eq_of_length hperm.length_eq.symm).symm
  · intro q2
    exact List.mergeSort_of_sorted hsorted

/-! ## C2: the iterative loop is bounded by max_iterations -/

theorem researchGo_log_length_le
    (search : Json → Except String (List RawSource))
    (llm : String → Except String String) (parse : String → Option Json)
    (subQs : List SubQ) :
    ∀ (fuel iteration : Nat) (allSources : List NormSource)
      (log : List IterRecord),
      (researchGo search llm parse subQs fuel iteration allSources log).2.length
        ≤ log.length + fuel := by
  intro fuel
  induction fuel with
  | zero =>
    intro it all log
    simp [researchGo]
  | succ f ih =>
    intro it all log
    simp only [researchGo]
    split
    · simp
    · rename_i queries _
      have h := ih (it + 1) (all ++ iterationSources search queries)
        (log ++ [⟨it + 1, queries, (iterationSources search queries).length⟩])
      simp only [List.length_append, List.length_cons, List.length_nil] at h ⊢
      omega

/-- C2: for every sub-question list and arbitrary search/judgment behaviour,
`ResearchAgent.research` executes at most `max_iterations` loop turns —
`iterations_completed ≤ max_iterations` — and the constructor default is
`max_iterations = 3`. -/
theorem c2_iterations_bounded (max_iterations : Nat) (subQs : List SubQ)
    (search : Json → Except String (List RawSource))
    (llm : String → Except String String) (parse : String → Option Json) :
    (research max_iterations subQs search llm parse).iterations_completed
      ≤ max_iterations
    ∧ researchAgentMaxIterations = 3 := by
  refine ⟨?_, rfl⟩
  have h := researchGo_log_length_le search llm parse subQs max_iterations 0 [] []
  simpa [research] using h

/-! ## C3: gap-analysis failure defaults to loop termination -/

theorem safe_load_json_of_parse_none (parse : String → Option Json)
    (h : ∀ s, parse s = none) (text : String) :
    safe_load_json parse text = Json.obj [] := by
  simp [safe_load_json, h]

theorem identify_gaps_default (llm : String → Except String String)
    (parse : String → Option Json) (sources : List NormSource)
    (subQs : List SubQ)
    (h : (∀ s, parse s = none) ∨ (∀ msg, ∃ e, llm msg = Except.error e)) :
    identify_gaps llm parse sources subQs = ⟨[], false⟩ := by
  rcases h with hp | hl
  · unfold identify_gaps
    dsimp only
    split
    · rfl
    · rename_i reply heq
      rw [safe_load_json_of_parse_none parse hp reply]
      rfl
  · unfold identify_gaps
    dsimp only
    split
    · rfl
    · rename_i reply heq
      obtain ⟨e, he⟩ := hl _
      rw [he] at heq
      cases heq

/-- C3: whenever the gap-analysis judgment call raises (every call errors)
or its replies carry no well-formed structured data (every `json.loads`
attempt fails), `_identify_gaps` returns
`{next_search: [], need_more: False}`, and the iterative loop terminates on
that very turn: at most one iteration completes. -/
theorem c3_gap_failure_defaults_and_terminates (m : Nat) (subQs : List SubQ)
    (search : Json → Except String (List RawSource))
    (llm : String → Except String String) (parse : String → Option Json)
    (h : (∀ s, parse s = none) ∨ (∀ msg, ∃ e, llm msg = Except.error e)) :
    (∀ (sources : List NormSource) (sq2 : List SubQ),
      identify_gaps llm parse sources sq2 = ⟨[], false⟩)
    ∧ (research m subQs search llm parse).iterations_completed = min m 1 := by
  refine ⟨fun sources sq2 => identify_gaps_default llm parse sources sq2 h, ?_⟩
  cases m with
  | zero => simp [research, researchGo]
  | succ f =>
    cases f with
    | zero => simp [research, researchGo]
    | succ f2 =>
      have hd : ∀ sources, identify_gaps llm parse sources subQs = ⟨[], false⟩ :=
        fun sources => identify_gaps_default llm parse sources subQs h
      simp [research, researchGo, hd]

/-- Witness for C3 at a concrete judge that replies with prose and a parser
that rejects every string: the gap default is returned and the loop stops
after the first turn. -/
theorem c3_witness :
    (∀ (sources : List NormSource) (sq2 : List SubQ),
      identify_gaps (fun _ => Except.ok "no structured data")
        (fun _ => none) sources sq2 = ⟨[], false⟩)
    ∧ (research 3 [⟨some "q", none⟩] (fun _ => Except.ok [])
        (fun _ => Except.ok "no structured data")
        (fun _ => none)).iterations_completed = min 3 1 :=
  c3_gap_failure_defaults_and_terminates 3 [⟨some "q", none⟩]
    (fun _ => Except.ok []) (fun _ => Except.ok "no structured data")
    (fun _ => none) (Or.inl fun _ => rfl)

/-! ## C5: partial-failure isolation in the thread-pool coordinator -/

/-- Refutation of the non-emptiness part of C5: `error` is `str(e)`, and an
exception whose text is empty yields a failed log entry whose `error` field
is the empty string. -/
theorem c5_counterexample :
    ¬ (∀ e ∈ (parallel_research ["q"] [⟨"q", Except.error ""⟩] 2).research_log,
        e.status = "failed" → ∃ s, e.error = some s ∧ s ≠ "") := by
  intro hcl
  have hmem : (⟨"q", some 0, "failed", some ""⟩ : LogEntry)
      ∈ (parallel_research ["q"] [⟨"q", Except.error ""⟩] 2).research_log := by
    simp [parallel_research, syncLogEntry]
  obtain ⟨s, hs, hne⟩ := hcl _ hmem rfl
  simp only [Option.some.injEq] at hs
  exact hne hs.symm

theorem syncLogEntry_question (t : PTask) :
    (syncLogEntry t).question = t.question := by
  cases h : t.outcome <;> simp [syncLogEntry, h]

/-- C5 (amended: the `error` text is `str(e)` and may be empty): with one
settled task per dispatched sub-question, the final log has exactly one
entry per sub-question; a raising task is logged as
`{question, sources_found: 0, status: failed, error: str(e)}` while every
other task is still processed and logged as completed. -/
theorem c5_amended (sub_questions : List String) (tasks : List PTask)
    (w : Nat)
    (hperm : List.Perm (tasks.map PTask.question) sub_questions) :
    ((parallel_research sub_questions tasks w).research_log.length
        = sub_questions.length)
    ∧ List.Perm ((parallel_research sub_questions tasks w).research_log.map
        LogEntry.question) sub_questions
    ∧ (∀ t ∈ tasks, ∀ e, t.outcome = Except.error e →
        (⟨t.question, some 0, "failed", some e⟩ : LogEntry)
          ∈ (parallel_research sub_questions tasks w).research_log)
    ∧ (∀ t ∈ tasks, ∀ srcs, t.outcome = Except.ok srcs →
        (⟨t.question, some srcs.length, "completed", none⟩ : LogEntry)
          ∈ (parallel_research sub_questions tasks w).research_log) := by
  have hmap : (tasks.map syncLogEntry).map LogEntry.question
      = tasks.map PTask.question := by
    rw [List.map_map]
    exact List.map_congr_left (fun t _ => syncLogEntry_question t)
  refine ⟨?_, ?_, ?_, ?_⟩
  · have := hperm.length_eq
    simpa [parallel_research] using this
  · have : (parallel_research sub_questions tasks w).research_log.map
        LogEntry.question = tasks.map PTask.question := by
      simpa [parallel_research] using hmap
    rw [this]
    exact hperm
  · intro t ht e he
    have : syncLogEntry t = ⟨t.question, some 0, "failed", some e⟩ := by
      simp [syncLogEntry, he]
    simpa [parallel_research, this.symm] using List.mem_map_of_mem syncLogEntry ht
  · intro t ht srcs hs
    have : syncLogEntry t = ⟨t.question, some srcs.length, "completed", none⟩ := by
      simp [syncLogEntry, hs]
    simpa [parallel_research, this.symm] using List.mem_map_of_mem syncLogEntry ht

/-- A concrete source record used by the C5 witness scenario. -/
def c5Src : RawSource := ⟨some "u", some "t", some "c", some 1, none⟩

/-- The C5 witness scenario: 4 dispatched sub-questions, completion order
q1, q2, q4, q3, where the task for q3 raises. -/
def c5Tasks : List PTask :=
  [⟨"q1", Except.ok [c5Src]⟩, ⟨"q2", Except.ok []⟩,
   ⟨"q4", Except.ok []⟩, ⟨"q3", Except.error "boom"⟩]

/-- Witness for C5 at the spec's scenario: 4 entries, the q3 entry failed
with the raised text, the q1 entry completed. -/
theorem c5_witness :
    ((parallel_research ["q1", "q2", "q3", "q4"] c5Tasks 2).research_log.length
        = 4)
    ∧ List.Perm
        ((parallel_research ["q1", "q2", "q3", "q4"] c5Tasks 2).research_log.map
          LogEntry.question) ["q1", "q2", "q3", "q4"]
    ∧ ((⟨"q3", some 0, "failed", some "boom"⟩ : LogEntry)
        ∈ (parallel_research ["q1", "q2", "q3", "q4"] c5Tasks 2).research_log)
    ∧ ((⟨"q1", some 1, "completed", none⟩ : LogEntry)
        ∈ (parallel_research ["q1", "q2", "q3", "q4"] c5Tasks 2).research_log) := by
  have h := c5_amended ["q1", "q2", "q3", "q4"] c5Tasks 2 (by decide)
  refine ⟨h.1, h.2.1, ?_, ?_⟩
  · exact h.2.2.1 ⟨"q3", Except.error "boom"⟩ (by simp [c5Tasks]) "boom" rfl
  · exact h.2.2.2 ⟨"q1", Except.ok [c5Src]⟩ (by simp [c5Tasks]) [c5Src] rfl

/-! ## C6: thread-pool vs async coordinator result shapes -/

/-- Refutation of C6 as stated: on the same single failing task, the async
coordinator's failed log entry has no `sources_found` key while the
thread-pool one has `sources_found: 0`, and the two result dicts also carry
different bookkeeping keys (`execution_mode` vs `parallel_workers`). -/
theorem c6_counterexample :
    ((parallel_research_async ["q"] [⟨"q", Except.error "boom"⟩]).research_log
        = [⟨"q", none, "failed", some "boom"⟩])
    ∧ ((parallel_research ["q"] [⟨"q", Except.error "boom"⟩] 3).research_log
        = [⟨"q", some 0, "failed", some "boom"⟩])
    ∧ ((parallel_research_async ["q"] [⟨"q", Except.error "boom"⟩]).research_log.map
          LogEntry.fields
        ≠ (parallel_research ["q"] [⟨"q", Except.error "boom"⟩] 3).research_log.map
          LogEntry.fields)
    ∧ ((parallel_research_async ["q"] [⟨"q", Except.error "boom"⟩]).fields
        ≠ (parallel_research ["q"] [⟨"q", Except.error "boom"⟩] 3).fields) := by
  refine ⟨rfl, rfl, ?_, ?_⟩ <;> decide

/-- C6 (amended): on identical per-question outcomes — the same settled
outcome per sub-question, with the thread-pool coordinator consuming them in
an arbitrary completion order (`syncTasks`, any permutation of the async
submission order `asyncTasks`) — the two coordinators agree on
`total_sources` and `sub_questions_processed`; their ranked source lists
hold the same sources and can differ only in the order of equal-score ties
(they are permutations of each other, both sorted descending, with
identical relevance-score sequences); their logs agree on
(question, status, error) up to completion-vs-submission order, and
completed entries are identical per task; but a failed task's async entry
omits `sources_found` (the thread-pool entry has `sources_found: 0`) and
the variants carry different bookkeeping keys. -/
theorem c6_amended (sub_questions : List String)
    (syncTasks asyncTasks : List PTask) (w : Nat)
    (hperm : List.Perm syncTasks asyncTasks) :
    ((parallel_research sub_questions syncTasks w).total_sources
        = (parallel_research_async sub_questions asyncTasks).total_sources)
    ∧ ((parallel_research sub_questions syncTasks w).sub_questions_processed
        = (parallel_research_async sub_questions
            asyncTasks).sub_questions_processed)
    ∧ List.Perm (parallel_research sub_questions syncTasks w).sources
        (parallel_research_async sub_questions asyncTasks).sources
    ∧ (parallel_research sub_questions syncTasks w).sources.Pairwise
        (fun a b => rankKey b ≤ rankKey a)
    ∧ (parallel_research_async sub_questions asyncTasks).sources.Pairwise
        (fun a b => rankKey b ≤ rankKey a)
    ∧ ((parallel_research sub_questions syncTasks w).sources.map rankKey
        = (parallel_research_async sub_questions asyncTasks).sources.map
            rankKey)
    ∧ List.Perm
        ((parallel_research sub_questions syncTasks w).research_log.map
          (fun e => (e.question, e.status, e.error)))
        ((parallel_research_async sub_questions asyncTasks).research_log.map
          (fun e => (e.question, e.status, e.error)))
    ∧ (∀ t ∈ syncTasks, ∀ srcs, t.outcome = Except.ok srcs →
        syncLogEntry t = asyncLogEntry t)
    ∧ (∀ t ∈ syncTasks, ∀ e, t.outcome = Except.error e →
        syncLogEntry t = ⟨t.question, some 0, "failed", some e⟩
        ∧ asyncLogEntry t = ⟨t.question, none, "failed", some e⟩)
    ∧ (parallel_research sub_questions syncTasks w).parallel_workers = some w
    ∧ (parallel_research_async sub_questions asyncTasks).execution_mode
        = some "async" := by
  have hflat : List.Perm ((syncTasks.map taskSources).flatten)
      ((asyncTasks.map taskSources).flatten) :=
    (hperm.map taskSources).flatten
  have hpermSources : List.Perm
      (List.mergeSort ((syncTasks.map taskSources).flatten) rankLE)
      (List.mergeSort ((asyncTasks.map taskSources).flatten) rankLE) :=
    ((List.mergeSort_perm _ rankLE).trans hflat).trans
      (List.mergeSort_perm _ rankLE).symm
  have hsorted1 :
      (List.mergeSort ((syncTasks.map taskSources).flatten) rankLE).Pairwise
        (fun a b => rankKey b ≤ rankKey a) :=
    (List.sorted_mergeSort rankLE_trans rankLE_total _).imp
      (fun h => by simpa [rankLE, decide_eq_true_eq] using h)
  have hsorted2 :
      (List.mergeSort ((asyncTasks.map taskSources).flatten) rankLE).Pairwise
        (fun a b => rankKey b ≤ rankKey a) :=
    (List.sorted_mergeSort rankLE_trans rankLE_total _).imp
      (fun h => by simpa [rankLE, decide_eq_true_eq] using h)
  refine ⟨hpermSources.length_eq, rfl, hpermSources, hsorted1, hsorted2,
    ?_, ?_, ?_, ?_, rfl, rfl⟩
  · haveI : IsAntisymm ℚ (fun a b : ℚ => b ≤ a) :=
      ⟨fun a b h1 h2 => le_antisymm h2 h1⟩
    have hms1 : ((List.mergeSort ((syncTasks.map taskSources).flatten)
        rankLE).map rankKey).Pairwise (fun a b : ℚ => b ≤ a) :=
      List.pairwise_map.mpr hsorted1
    have hms2 : ((List.mergeSort ((asyncTasks.map taskSources).flatten)
        rankLE).map rankKey).Pairwise (fun a b : ℚ => b ≤ a) :=
      List.pairwise_map.mpr hsorted2
    exact List.eq_of_perm_of_sorted (hpermSources.map rankKey) hms1 hms2
  · show List.Perm ((syncTasks.map syncLogEntry).map _)
      ((asyncTasks.map asyncLogEntry).map _)
    rw [List.map_map, List.map_map]
    have hsame : syncTasks.map
        ((fun e => (e.question, e.status, e.error)) ∘ syncLogEntry)
        = syncTasks.map
          ((fun e => (e.question, e.status, e.error)) ∘ asyncLogEntry) :=
      List.map_congr_left (fun t _ => by
        cases h : t.outcome <;> simp [syncLogEntry, asyncLogEntry, h])
    rw [hsame]
    exact hperm.map _
  · intro t _ srcs hs
    simp [syncLogEntry, asyncLogEntry, hs]
  · intro t _ e he
    simp [syncLogEntry, asyncLogEntry, he]

/-- Witness for C6 (amended) on a two-task run with one failure, where the
thread-pool completion order is the reverse of the async submission
order. -/
theorem c6_witness :
    ((parallel_research ["a", "b"]
        [⟨"b", Except.error "x"⟩, ⟨"a", Except.ok []⟩] 3).total_sources
      = (parallel_research_async ["a", "b"]
        [⟨"a", Except.ok []⟩, ⟨"b", Except.error "x"⟩]).total_sources)
    ∧ List.Perm (parallel_research ["a", "b"]
        [⟨"b", Except.error "x"⟩, ⟨"a", Except.ok []⟩] 3).sources
      (parallel_research_async ["a", "b"]
        [⟨"a", Except.ok []⟩, ⟨"b", Except.error "x"⟩]).sources
    ∧ (syncLogEntry ⟨"b", Except.error "x"⟩ = ⟨"b", some 0, "failed", some "x"⟩
        ∧ asyncLogEntry ⟨"b", Except.error "x"⟩
          = ⟨"b", none, "failed", some "x"⟩) := by
  have h := c6_amended ["a", "b"]
    [⟨"b", Except.error "x"⟩, ⟨"a", Except.ok []⟩]
    [⟨"a", Except.ok []⟩, ⟨"b", Except.error "x"⟩] 3
    (List.Perm.swap (⟨"a", Except.ok []⟩ : PTask)
      (⟨"b", Except.error "x"⟩ : PTask) [])
  exact ⟨h.1, h.2.2.1,
    h.2.2.2.2.2.2.2.2.1 ⟨"b", Except.error "x"⟩ (by simp) "x" rfl⟩

/-! ## C7: validation confidence is NOT clamped to [0,100] -/

theorem safe_load_json_const (parse : String → Option Json) (j : Json)
    (h : ∀ s, parse s = some j) (text : String) (htext : text ≠ "") :
    safe_load_json parse text = j := by
  have hb : (text == "") = false := beq_eq_false_iff_ne.mpr htext
  simp [safe_load_json, hb, h]

/-- Refutation of C7: a well-formed reply whose confidence value is 150
yields `ValidationResult.confidence = 150`, outside [0,100] — `validate`
applies no clamping. -/
theorem c7_counterexample :
    ((validate (fun _ => Except.ok "reply")
        (fun _ => some (Json.obj [("confidence", Json.num 150)]))
        "syn" []).confidence = 150)
    ∧ ¬ ((validate (fun _ => Except.ok "reply")
        (fun _ => some (Json.obj [("confidence", Json.num 150)]))
        "syn" []).confidence ≤ 100) := by
  have h : (validate (fun _ => Except.ok "reply")
      (fun _ => some (Json.obj [("confidence", Json.num 150)]))
      "syn" []).confidence = 150 := by decide
  exact ⟨h, by rw [h]; decide⟩

/-- C7 (amended): `validate` does not clamp.  On every failure path (here:
the judgment call raises) the confidence is the in-range default 70; when
the reply parses to a dict whose `confidence` value is a non-zero number
`q`, the returned confidence is exactly Python `int(q)` (truncation toward
zero) with no clamping into [0,100]. -/
theorem c7_amended (llm : String → Except String String)
    (parse : String → Option Json) (synthesis : String)
    (sources : List RawSource) (q : ℚ) :
    ((∀ msg, ∃ e, llm msg = Except.error e) →
      (validate llm parse synthesis sources).confidence = 70)
    ∧ ((∀ msg, llm msg = Except.ok "reply") →
      (∀ s, parse s = some (Json.obj [("confidence", Json.num q)])) →
      q ≠ 0 →
      (validate llm parse synthesis sources).confidence
        = q.num.tdiv (q.den : Int)) := by
  constructor
  · intro hl
    unfold validate
    dsimp only
    split
    · rfl
    · rename_i reply heq
      obtain ⟨e, he⟩ := hl _
      rw [he] at heq
      cases heq
  · intro hllm hparse hq
    have hbne : (q != 0) = true := bne_iff_ne.mpr hq
    have hsafe : safe_load_json parse "reply"
        = Json.obj [("confidence", Json.num q)] :=
      safe_load_json_const parse _ hparse "reply" (by decide)
    unfold validate
    dsimp only
    rw [hllm]
    dsimp only
    rw [hsafe]
    simp [Json.isObj, jget, jgetD, pyOr, Json.truthy, pyToInt, List.lookup,
      hbne]

/-- Witness for C7 (amended): a raising judge gives the default 70; a
well-formed reply with confidence 42 gives exactly 42. -/
theorem c7_witness :
    ((validate (fun _ => Except.error "down") (fun _ => none) "" []).confidence
        = 70)
    ∧ ((validate (fun _ => Except.ok "reply")
        (fun _ => some (Json.obj [("confidence", Json.num 42)]))
        "" []).confidence = (42 : ℚ).num.tdiv ((42 : ℚ).den : Int)) := by
  constructor
  · exact (c7_amended (fun _ => Except.error "down") (fun _ => none)
      "" [] 42).1 (fun msg => ⟨"down", rfl⟩)
  · exact (c7_amended (fun _ => Except.ok "reply")
      (fun _ => some (Json.obj [("confidence", Json.num 42)]))
      "" [] 42).2 (fun _ => rfl) (fun _ => rfl) (by norm_num)

/-! ## C1: failure handling in conduct_research -/

/-- The stored session for `sid` (when present) carries no failed marker:
`current_stage` is not the string `failed` and neither is `status`. -/
def sessionNotFailed (store : SessionStore) (sid : String) : Prop :=
  ∀ sess, get_session store sid = some sess →
    sess.lookup "current_stage" ≠ some (Json.str "failed")
    ∧ sess.lookup "status" ≠ some (Json.str "failed")

theorem foldl_assocSet_lookup (data : List (String × Json)) (sess : Session)
    (k : String) (v : Json)
    (h : (data.foldl (fun d kv => assocSet d kv.1 kv.2) sess).lookup k
      = some v) :
    (k, v) ∈ data ∨ sess.lookup k = some v := by
  induction data generalizing sess with
  | nil =>
    right
    simpa using h
  | cons kv rest ih =>
    obtain ⟨k1, v1⟩ := kv
    simp only [List.foldl_cons] at h
    rcases ih (assocSet sess k1 v1) h with hmem | hlk
    · exact Or.inl (List.mem_cons_of_mem _ hmem)
    · by_cases hk : k = k1
      · subst hk
        rw [assocSet_lookup] at hlk
        injection hlk with hv
        subst hv
        exact Or.inl (List.mem_cons_self _ _)
      · rw [assocSet_lookup_ne _ _ _ _ hk] at hlk
        exact Or.inr hlk

theorem create_session_not_failed (store : SessionStore)
    (sid q t : String) :
    sessionNotFailed (create_session store sid q t) sid := by
  intro sess hget
  unfold get_session create_session at hget
  rw [assocSet_lookup] at hget
  injection hget with hs
  subst hs
  constructor <;> simp [List.lookup]

theorem update_session_not_failed (store : SessionStore) (sid : String)
    (data : List (String × Json)) (store2 : SessionStore)
    (h : update_session store sid data = Except.ok store2)
    (hcs : ∀ v, ("current_stage", v) ∈ data → v ≠ Json.str "failed")
    (hst : ∀ v, ("status", v) ∈ data → v ≠ Json.str "failed")
    (hpre : sessionNotFailed store sid) :
    sessionNotFailed store2 sid := by
  unfold update_session at h
  cases hlk : store.lookup sid with
  | none => rw [hlk] at h; cases h
  | some sess =>
    rw [hlk] at h
    injection h with h2
    subst h2
    intro sess2 hget
    unfold get_session at hget
    rw [assocSet_lookup] at hget
    injection hget with hs
    subst hs
    constructor
    · intro hbad
      rcases foldl_assocSet_lookup data sess _ _ hbad with hmem | hlk2
      · exact hcs _ hmem rfl
      · exact (hpre sess hlk).1 hlk2
    · intro hbad
      rcases foldl_assocSet_lookup data sess _ _ hbad with hmem | hlk2
      · exact hst _ hmem rfl
      · exact (hpre sess hlk).2 hlk2

theorem set_agent_output_not_failed (store : SessionStore)
    (sid agent : String) (output : Json)
    (hpre : sessionNotFailed store sid) :
    sessionNotFailed (set_agent_output store sid agent output) sid := by
  unfold set_agent_output
  cases hlk : store.lookup sid with
  | none => exact hpre
  | some sess =>
    intro sess2 hget
    unfold get_session at hget
    rw [assocSet_lookup] at hget
    injection hget with hs
    subst hs
    have hne1 : ("current_stage" : String) ≠ "outputs" := by decide
    have hne2 : ("status" : String) ≠ "outputs" := by decide
    rw [assocSet_lookup_ne _ _ _ _ hne1, assocSet_lookup_ne _ _ _ _ hne2]
    exact hpre sess hlk

theorem close_session_completed_not_failed (store : SessionStore)
    (sid : String) (closed_at : ℚ) (store2 : SessionStore)
    (h : close_session store sid "completed" closed_at = Except.ok store2)
    (hpre : sessionNotFailed store sid) :
    sessionNotFailed store2 sid := by
  unfold close_session at h
  cases hlk : store.lookup sid with
  | none => rw [hlk] at h; cases h
  | some sess =>
    rw [hlk] at h
    injection h with h2
    subst h2
    intro sess2 hget
    unfold get_session at hget
    rw [assocSet_lookup] at hget
    injection hget with hs
    subst hs
    have hne1 : ("current_stage" : String) ≠ "closed_at" := by decide
    have hne2 : ("current_stage" : String) ≠ "status" := by decide
    have hne3 : ("status" : String) ≠ "closed_at" := by decide
    constructor
    · rw [assocSet_lookup_ne _ _ _ _ hne1, assocSet_lookup_ne _ _ _ _ hne2]
      exact (hpre sess hlk).1
    · rw [assocSet_lookup_ne _ _ _ _ hne3, assocSet_lookup]
      simp

theorem stage_planning_not_failed (env : OrchEnv) (sid : String)
    (st : OrchState) (hpre : sessionNotFailed st.store sid) :
    sessionNotFailed (stage_planning env sid st).2.store sid := by
  unfold stage_planning
  cases env.plan_outcome with
  | error e => exact hpre
  | ok plan =>
    dsimp only
    cases hupdate : update_session st.store sid
        [("current_stage", Json.str "research"),
         ("sub_queries", jgetD plan "sub_questions" (Json.arr []))] with
    | error e => exact hpre
    | ok store2 =>
      dsimp only
      apply set_agent_output_not_failed
      refine update_session_not_failed _ _ _ _ hupdate ?_ ?_ hpre
      · intro v hv
        simp at hv
        subst hv
        simp
      · intro v hv
        simp at hv

theorem stage_research_not_failed (env : OrchEnv) (sid : String)
    (st : OrchState) (hpre : sessionNotFailed st.store sid) :
    sessionNotFailed (stage_research env sid st).2.store sid := by
  unfold stage_research
  cases env.research_outcome with
  | error e => exact hpre
  | ok research_results =>
    dsimp only
    cases pyIndex research_results "sources" with
    | error e => exact hpre
    | ok sourcesJ =>
      dsimp only
      cases pyIndex research_results "iterations_completed" with
      | error e => exact hpre
      | ok iters =>
        dsimp only
        cases hupdate : update_session st.store sid
            [("current_stage", Json.str "synthesis"),
             ("sources_found", sourcesJ),
             ("research_iterations", iters)] with
        | error e => exact hpre
        | ok store2 =>
          dsimp only
          have h2 : sessionNotFailed store2 sid := by
            refine update_session_not_failed _ _ _ _ hupdate ?_ ?_ hpre
            · intro v hv
              simp at hv
              subst hv
              simp
            · intro v hv
              simp at hv
          cases pyIterList sourcesJ with
          | error e => exact h2
          | ok srcs => exact set_agent_output_not_failed _ _ _ _ h2

theorem stage_synthesis_not_failed (env : OrchEnv) (sid : String)
    (st : OrchState) (hpre : sessionNotFailed st.store sid) :
    sessionNotFailed (stage_synthesis env sid st).2.store sid := by
  unfold stage_synthesis
  cases env.synthesis_outcome with
  | error e => exact hpre
  | ok synthesis_results =>
    dsimp only
    cases hupdate : update_session st.store sid
        [("current_stage", Json.str "validation")] with
    | error e => exact hpre
    | ok store2 =>
      dsimp only
      have h2 : sessionNotFailed store2 sid := by
        refine update_session_not_failed _ _ _ _ hupdate ?_ ?_ hpre
        · intro v hv
          simp at hv
          subst hv
          simp
        · intro v hv
          simp at hv
      cases pyIndex synthesis_results "synthesis" with
      | error e => exact h2
      | ok _ => exact set_agent_output_not_failed _ _ _ _ h2

theorem stage_validation_not_failed (env : OrchEnv) (sid : String)
    (st : OrchState) (hpre : sessionNotFailed st.store sid) :
    sessionNotFailed (stage_validation env sid st).2.store sid := by
  unfold stage_validation
  cases env.validation_outcome with
  | error e => exact hpre
  | ok validation_results =>
    dsimp only
    cases hupdate : update_session st.store sid
        [("current_stage", Json.str "content_generation"),
         ("validation_results", validation_results)] with
    | error e => exact hpre
    | ok store2 =>
      dsimp only
      apply set_agent_output_not_failed
      refine update_session_not_failed _ _ _ _ hupdate ?_ ?_ hpre
      · intro v hv
        simp at hv
        subst hv
        simp
      · intro v hv
        simp at hv

theorem stage_generation_not_failed (env : OrchEnv) (sid : String)
    (st : OrchState) (hpre : sessionNotFailed st.store sid) :
    sessionNotFailed (stage_generation env sid st).2.store sid := by
  unfold stage_generation
  cases env.generation_outcome with
  | error e => exact hpre
  | ok final_content =>
    dsimp only
    cases hupdate : update_session st.store sid
        [("current_stage", Json.str "completed"),
         ("status", Json.str "completed")] with
    | error e => exact hpre
    | ok store2 =>
      dsimp only
      have h2 : sessionNotFailed store2 sid := by
        refine update_session_not_failed _ _ _ _ hupdate ?_ ?_ hpre
        · intro v hv
          simp at hv
          subst hv
          simp
        · intro v hv
          simp at hv
          subst hv
          simp
      cases pyIndex final_content "content" with
      | error e => exact h2
      | ok _ =>
        dsimp only
        cases pyIndex final_content "word_count" with
        | error e => exact h2
        | ok _ => exact set_agent_output_not_failed _ _ _ _ h2

theorem conduct_research_store_not_failed (env : OrchEnv)
    (store0 : SessionStore) (query sid t : String) (now : ℚ) :
    sessionNotFailed
      (conduct_research env store0 query sid t now).state.store sid := by
  unfold conduct_research
  dsimp only
  have h0 : sessionNotFailed
      (OrchState.store ⟨create_session store0 sid query t, [],
        ["start_session"]⟩) sid :=
    create_session_not_failed store0 sid query t
  have h1 := stage_planning_not_failed env sid _ h0
  split
  · rename_i e stE heq
    rw [heq] at h1
    exact h1
  · rename_i plan st1 heq
    rw [heq] at h1
    have h2 := stage_research_not_failed env sid st1 h1
    split
    · rename_i e stE heq2
      rw [heq2] at h2
      exact h2
    · rename_i research_results st2 heq2
      rw [heq2] at h2
      have h3 := stage_synthesis_not_failed env sid st2 h2
      split
      · rename_i e stE heq3
        rw [heq3] at h3
        exact h3
      · rename_i synthesis_results st3 heq3
        rw [heq3] at h3
        have h4 := stage_validation_not_failed env sid st3 h3
        split
        · rename_i e stE heq4
          rw [heq4] at h4
          exact h4
        · rename_i validation_results st4 heq4
          rw [heq4] at h4
          have h5 := stage_generation_not_failed env sid st4 h4
          split
          · rename_i e stE heq5
            rw [heq5] at h5
            exact h5
          · rename_i final_content st5 heq5
            rw [heq5] at h5
            split
            · exact h5
            · rename_i sess hsess
              split
              · exact h5
              · rename_i dur hdur
                have h6 : sessionNotFailed
                    (assocSet st5.store sid (assocSet sess "duration" dur))
                    sid := by
                  intro sess2 hget
                  unfold get_session at hget
                  rw [assocSet_lookup] at hget
                  injection hget with hs
                  subst hs
                  have hne1 : ("current_stage" : String) ≠ "duration" := by
                    decide
                  have hne2 : ("status" : String) ≠ "duration" := by decide
                  rw [assocSet_lookup_ne _ _ _ _ hne1,
                    assocSet_lookup_ne _ _ _ _ hne2]
                  exact h5 sess hsess
                split
                · exact h6
                · rename_i store7 hclose
                  have h7 := close_session_completed_not_failed _ sid now
                    store7 hclose h6
                  split
                  · exact h7
                  · rename_i totalJ htotal
                    split
                    · exact h7
                    · rename_i itersJ hiters
                      split
                      · exact h7
                      · exact h7

theorem conduct_research_obs_failed (env : OrchEnv) (store0 : SessionStore)
    (query sid t : String) (now : ℚ) (e : String)
    (h : (conduct_research env store0 query sid t now).result
      = Except.error e) :
    (conduct_research env store0 query sid t now).state.obs.getLast?
      = some "end_session:failed" := by
  revert h
  unfold conduct_research
  dsimp only
  (repeat' split) <;> intro h <;>
    simp_all [orchFail, List.getLast?_concat]

theorem conduct_research_plan_raise (env : OrchEnv) (store0 : SessionStore)
    (query sid t : String) (now : ℚ) (e : String)
    (he : env.plan_outcome = Except.error e) :
    (conduct_research env store0 query sid t now).result = Except.error e := by
  have hstage : stage_planning env sid
      ⟨create_session store0 sid query t, [], ["start_session"]⟩
      = (Except.error e,
          ⟨create_session store0 sid query t, [], ["start_session"]⟩) := by
    unfold stage_planning
    rw [he]
  unfold conduct_research
  dsimp only
  rw [hstage]
  rfl

/-- The C1 scenario: a run whose validation stage raises `boom` while all
earlier stages return well-formed outputs. -/
def c1Env : OrchEnv :=
  { plan_outcome := .ok (Json.obj [("main_topic", .str "t"),
      ("sub_questions", .arr []), ("estimated_sources_needed", .num 6)])
    research_outcome := .ok (Json.obj [("sources", .arr []),
      ("research_log", .arr []), ("iterations_completed", .num 0),
      ("total_sources", .num 0)])
    synthesis_outcome := .ok (Json.obj [("synthesis", .str "syn"),
      ("sources_used", .num 0), ("synthesis_length", .num 0)])
    validation_outcome := .error "boom"
    generation_outcome := .ok Json.null
    duration_outcome := .ok Json.null }

/-- Refutation of the session-store part of C1: when the validation stage
raises, `conduct_research` does re-raise and does report `failed` to
observability, but the stored session's `current_stage` is `validation` —
not `failed` — and no `status` field is set at all: the Session Store
carries no failed marker. -/
theorem c1_counterexample :
    ((conduct_research c1Env [] "query" "sid" "t0" 0).result
        = Except.error "boom")
    ∧ ((conduct_research c1Env [] "query" "sid" "t0" 0).state.obs
        = ["start_session", "end_session:failed"])
    ∧ ((get_session
          (conduct_research c1Env [] "query" "sid" "t0" 0).state.store
          "sid").map (fun sess => sess.lookup "current_stage")
        = some (some (Json.str "validation")))
    ∧ ((get_session
          (conduct_research c1Env [] "query" "sid" "t0" 0).state.store
          "sid").map (fun sess => sess.lookup "status")
        = some none)
    ∧ Json.str "validation" ≠ Json.str "failed" := by
  refine ⟨rfl, rfl, rfl, rfl, by simp⟩

/-- C1 (amended): on any stage exception `conduct_research` reports the
failed status to the observability collaborator and re-raises the exception
to its caller (shown below for a raise in the planning stage, and by the
counterexample for the validation stage), but it does NOT mark the Session
as failed in the Session Store: the stored session's `current_stage` is
never the string `failed`, and its `status` field is never `failed`. -/
theorem c1_amended (env : OrchEnv) (store0 : SessionStore)
    (query sid t : String) (now : ℚ) :
    (∀ e, (conduct_research env store0 query sid t now).result
        = Except.error e →
      (conduct_research env store0 query sid t now).state.obs.getLast?
        = some "end_session:failed")
    ∧ (∀ e, env.plan_outcome = Except.error e →
      (conduct_research env store0 query sid t now).result = Except.error e)
    ∧ sessionNotFailed
        (conduct_research env store0 query sid t now).state.store sid :=
  ⟨fun e h => conduct_research_obs_failed env store0 query sid t now e h,
   fun e he => conduct_research_plan_raise env store0 query sid t now e he,
   conduct_research_store_not_failed env store0 query sid t now⟩

/-- The C1 scenario with a raise already in the planning stage. -/
def c1EnvB : OrchEnv := { c1Env with plan_outcome := .error "down" }

/-- Witness for C1 (amended) at two concrete runs: the validation-stage
raise of `c1Env` and a planning-stage raise. -/
theorem c1_witness :
    ((conduct_research c1Env [] "query" "sid" "t0" 0).state.obs.getLast?
        = some "end_session:failed")
    ∧ ((conduct_research c1EnvB [] "query" "sid" "t0" 0).result
        = Except.error "down")
    ∧ sessionNotFailed
        (conduct_research c1Env [] "query" "sid" "t0" 0).state.store "sid" := by
  have h1 := c1_amended c1Env [] "query" "sid" "t0" 0
  have h2 := c1_amended c1EnvB [] "query" "sid" "t0" 0
  exact ⟨h1.1 "boom" rfl, h2.2.1 "down" rfl, h1.2.2⟩
